import Mathlib

set_option maxRecDepth 2048

/-!
Shallow embedding of `src/real_estate_scraper.py`: the Criteria/filter model,
the attribute classifiers, the per-listing extractor/filter (`scrape_listing`),
the pagination driver (`scrape_listings`), and the result sink (`save_results`),
together with theorems settling the spec claims about them.
-/

namespace Scraper

/-! ### Python-value model for `set_filters`'s zip_codes channel

`set_filters` receives `zip_codes` as an arbitrary Python value; the code
normalizes it with `set(str(z) for z in value)` only when
`isinstance(value, (list, set))` holds, and stores it unchanged otherwise.
-/

/-- A Python scalar that can appear as an element of the zip-codes iterable;
`str` conversion is total on these. -/
inductive PyVal where
  | str (s : String)
  | int (n : Int)
deriving DecidableEq, Repr

/-- Python `str(v)` on a scalar. -/
def PyVal.toStr : PyVal → String
  | .str s => s
  | .int n => toString n

/-- The shapes of iterable Python values that can be passed for `zip_codes`:
list, set, tuple, dict-keys view, generator. -/
inductive PyIterable where
  | pyList (xs : List PyVal)
  | pySet (xs : List PyVal)
  | pyTuple (xs : List PyVal)
  | pyDictKeys (xs : List PyVal)
  | pyGen (xs : List PyVal)
deriving DecidableEq, Repr

/-- The element sequence underlying an iterable. -/
def PyIterable.elems : PyIterable → List PyVal
  | .pyList xs | .pySet xs | .pyTuple xs | .pyDictKeys xs | .pyGen xs => xs

/-- Python `isinstance(value, (list, set))`. -/
def PyIterable.isListOrSet : PyIterable → Bool
  | .pyList _ => true
  | .pySet _ => true
  | _ => false

/-- The value `set_filters` stores for key `'zip_codes'` (lines 64-67):
`set(str(zip_code) for zip_code in value)` when the value is a list or a set,
the value itself otherwise.  Python `set(...)` keeps one copy of each element. -/
def setZipCodesFilter (v : PyIterable) : PyIterable :=
  if v.isListOrSet then
    .pySet ((v.elems.map (fun z => PyVal.str z.toStr)).dedup)
  else v

/-- Whether a stored value is a Python set all of whose elements are strings. -/
def PyIterable.isStrSet : PyIterable → Bool
  | .pySet xs => xs.all (fun x => match x with | .str _ => true | .int _ => false)
  | _ => false

/-- The `MIAMI_ZIP_CODES` dict keys (module lines 19-32), in insertion order. -/
def MIAMI_ZIP_CODES_keys : List PyVal :=
  [.str "33125", .str "33127", .str "33128", .str "33130", .str "33131",
   .str "33132", .str "33133", .str "33134", .str "33135", .str "33136",
   .str "33137", .str "33138"]

/-! ### String helpers: Python `.lower()`, `.strip()`, `in` -/

/-- Python `str.lower()` (ASCII case mapping, which covers every phrase the
classifiers hold). -/
def pyLower (s : String) : String := ⟨s.data.map Char.toLower⟩

/-- Python `str.strip()`: drop whitespace from both ends. -/
def pyStrip (s : String) : String :=
  ⟨((s.data.dropWhile Char.isWhitespace).reverse.dropWhile Char.isWhitespace).reverse⟩

/-- Whether `needle` occurs at the start of `hay` (character lists). -/
def isSubAt : List Char → List Char → Bool
  | [], _ => true
  | _ :: _, [] => false
  | a :: as, b :: bs => a == b && isSubAt as bs

/-- Whether `needle` occurs somewhere inside `hay`: Python `needle in hay`. -/
def hasSub (needle : List Char) : List Char → Bool
  | [] => needle.isEmpty
  | b :: bs => isSubAt needle (b :: bs) || hasSub needle bs

/-- Python `needle in hay` on strings. -/
def strContains (hay needle : String) : Bool := hasSub needle.data hay.data

/-! ### Parsed-document model

A `Soup` records what each structural locator of `scrape_listing` finds in the
parsed document: the `.text` of the matched element, or `none` on a miss. -/

structure Soup where
  titleText : Option String
  priceText : Option String
  bedroomsText : Option String
  bathroomsText : Option String
  sqftText : Option String
  addressText : Option String
  descriptionText : Option String
deriving DecidableEq, Repr

/-! ### Attribute classifiers (lines 93-125) -/

/-- The accessibility keyword phrases (lines 96-102). -/
def accessibility_indicators : List String :=
  ["wheelchair accessible", "ada compliant", "handicap accessible",
   "accessible unit", "accessibility features"]

/-- The Section-8 keyword phrases (lines 113-119). -/
def section8_indicators : List String :=
  ["section 8", "section 8 accepted", "section 8 welcome",
   "housing choice voucher", "hcv welcome"]

/-- `is_wheelchair_accessible` (lines 93-108): lower-case the description text
and test each phrase for substring occurrence; `False` when the description
container is absent. -/
def is_wheelchair_accessible (soup : Soup) : Bool :=
  match soup.descriptionText with
  | some d => accessibility_indicators.any (fun ind => strContains (pyLower d) ind)
  | none => false

/-- `accepts_section_8` (lines 110-125): same shape over the Section-8 phrases. -/
def accepts_section_8 (soup : Soup) : Bool :=
  match soup.descriptionText with
  | some d => section8_indicators.any (fun ind => strContains (pyLower d) ind)
  | none => false

/-! ### ZIP extraction (lines 163-175): `re.search(r'\b(\d{5})\b', text)` -/

/-- Regex `\w`: a word character. -/
def isWordChar (c : Char) : Bool := c.isAlphanum || c == '_'

/-- Scan left to right for the first position where a word boundary is followed
by exactly five digits and another word boundary; `prev` is the character just
before the current position (`none` at the start of the string). -/
def findZipAux : Option Char → List Char → Option String
  | _, [] => none
  | prev, c :: rest =>
    let boundaryBefore := match prev with
      | none => true
      | some p => !isWordChar p
    let cand := (c :: rest).take 5
    let boundaryAfter := match (c :: rest).drop 5 with
      | [] => true
      | d :: _ => !isWordChar d
    if boundaryBefore && cand.length == 5 && cand.all Char.isDigit && boundaryAfter then
      some ⟨cand⟩
    else findZipAux (some c) rest

/-- `extract_zip_code` (lines 163-175): search the stripped address text for a
standalone 5-digit token; first match wins, absence yields `""`. -/
def extract_zip_code (soup : Soup) : String :=
  match soup.addressText with
  | some addr =>
    match findZipAux none (pyStrip addr).data with
    | some z => z
    | none => ""
  | none => ""

/-! ### Filters (the `self.filters` dict, lines 42-53) -/

structure Filters where
  min_price : Option Int := none
  max_price : Option Int := none
  min_bedrooms : Option Int := none
  max_bedrooms : Option Int := none
  property_type : Option String := none
  zip_codes : List String := []
  wheelchair_accessible : Bool := false
  section_8_accepted : Bool := false
  min_sqft : Option Int := none
  max_sqft : Option Int := none
deriving DecidableEq, Repr

/-! ### Listing record (the dict built at lines 140-152) -/

structure Listing where
  title : String
  price : String
  bedrooms : String
  bathrooms : String
  sqft : String
  address : String
  zip_code : String
  wheelchair_accessible : Bool
  section_8_accepted : Bool
  description : String
  url : String
deriving DecidableEq, Repr

/-- The ZIP rejection condition of lines 154-156: the allowed set is truthy
(non-empty) and the listing's zip is not a member. -/
def zipRejects (zips : List String) (zip : String) : Bool :=
  !zips.isEmpty && !zips.contains zip

/-- The body of `scrape_listing`'s `try` block after a successful fetch and
parse: the requirement check of lines 135-137, the field extraction of lines
140-152 (any required-locator miss raises and falls to the `except`, hence
`none`), and the ZIP check of lines 154-156 applied to the extracted
`zip_code` value. -/
def processSoup (f : Filters) (url : String) (soup : Soup) : Option Listing :=
  if (f.wheelchair_accessible && !is_wheelchair_accessible soup) ||
     (f.section_8_accepted && !accepts_section_8 soup) then
    none
  else
    match soup.titleText, soup.priceText, soup.bedroomsText, soup.bathroomsText,
          soup.sqftText, soup.addressText, soup.descriptionText with
    | some t, some p, some bd, some ba, some sq, some ad, some de =>
      if zipRejects f.zip_codes (extract_zip_code soup) then none
      else some
        { title := pyStrip t
          price := pyStrip p
          bedrooms := pyStrip bd
          bathrooms := pyStrip ba
          sqft := pyStrip sq
          address := pyStrip ad
          zip_code := extract_zip_code soup
          wheelchair_accessible := is_wheelchair_accessible soup
          section_8_accepted := accepts_section_8 soup
          description := pyStrip de
          url := url }
    | _, _, _, _, _, _, _ => none

/-- `scrape_listing` (lines 127-161): fetching and parsing the listing URL is
the black-box `fetch`, with `none` standing for any exception there (transport
fault, caught by the `except` at lines 159-161); a successful fetch continues
with `processSoup`. -/
def scrape_listing (f : Filters) (fetch : String → Option Soup) (url : String) :
    Option Listing :=
  match fetch url with
  | none => none
  | some soup => processSoup f url soup

/-! ### Pagination driver (`scrape_listings`, lines 177-204) -/

/-- The external world of one run: fetching/parsing search page `p` either
yields the listing-link URLs found on it or a transport fault, and fetching a
listing URL yields its parsed document or fails. -/
structure Env where
  searchPage : Nat → Except Unit (List String)
  fetchListing : String → Option Soup

/-- The page loop of `scrape_listings`: process the given page numbers in
order, appending each page's accepted listings; a search-page fault breaks the
loop and returns the accumulator as is. -/
def scrapeListingsAux (f : Filters) (env : Env) : List Nat → List Listing → List Listing
  | [], acc => acc
  | p :: ps, acc =>
    match env.searchPage p with
    | .error _ => acc
    | .ok urls =>
      scrapeListingsAux f env ps
        (acc ++ urls.filterMap (scrape_listing f env.fetchListing))

/-- `scrape_listings(max_pages)` (lines 177-204): pages 1 through `max_pages`
inclusive. -/
def scrape_listings (f : Filters) (env : Env) (max_pages : Nat) : List Listing :=
  scrapeListingsAux f env (List.range' 1 max_pages) []

/-! ### Result sink (`save_results`, lines 206-216) and the run entry point -/

/-- A wall-clock instant at second resolution, as `datetime.now()` provides it. -/
structure DateTime where
  year : Nat
  month : Nat
  day : Nat
  hour : Nat
  minute : Nat
  second : Nat
deriving DecidableEq, Repr

/-- The character of a decimal digit. -/
def digitChar (n : Nat) : Char := Char.ofNat (48 + n)

/-- A number rendered zero-padded to two digits, as `strftime` does. -/
def pad2 (n : Nat) : List Char := [digitChar (n / 10), digitChar (n % 10)]

/-- A number rendered zero-padded to four digits, as `strftime('%Y')` does. -/
def pad4 (n : Nat) : List Char :=
  [digitChar (n / 1000), digitChar (n / 100 % 10), digitChar (n / 10 % 10),
   digitChar (n % 10)]

/-- `datetime.now().strftime('%Y%m%d_%H%M%S')` (line 213). -/
def strftimeYmdHMS (t : DateTime) : String :=
  ⟨pad4 t.year ++ pad2 t.month ++ pad2 t.day ++ ('_' :: pad2 t.hour)
    ++ pad2 t.minute ++ pad2 t.second⟩

/-- The output file name built at line 214. -/
def saveFilename (t : DateTime) : String :=
  "scraping_results/miami_listings_" ++ strftimeYmdHMS t ++ ".csv"

/-- `save_results` (lines 206-216): an empty result set writes nothing and
reports nothing to save (`none`); otherwise the CSV is written to the
timestamped file name, which is returned. -/
def save_results (now : DateTime) (listings : List Listing) : Option String :=
  if listings.isEmpty then none else some (saveFilename now)

/-- The scrape-then-persist tail of `main` (lines 239-242): run the pagination
driver, then hand whatever it accumulated to the sink. -/
def runScrapeAndSave (f : Filters) (env : Env) (now : DateTime) (max_pages : Nat) :
    List Listing × Option String :=
  let listings := scrape_listings f env max_pages
  (listings, save_results now listings)

/-- The same environment with every occurrence of the link `u` removed from
every search page's link list. -/
def dropUrl (env : Env) (u : String) : Env :=
  { env with
    searchPage := fun p =>
      match env.searchPage p with
      | .error e => .error e
      | .ok urls => .ok (urls.filter (fun v => v ≠ u)) }

/-! ### Substring bridge: `hasSub` computes list-infix occurrence -/

theorem isSubAt_iff (n h : List Char) : isSubAt n h = true ↔ n <+: h := by
  induction n generalizing h with
  | nil => simp [isSubAt, List.nil_prefix]
  | cons a as ih =>
    cases h with
    | nil =>
      rw [show isSubAt (a :: as) [] = false from rfl]
      simp
    | cons b bs =>
      rw [show isSubAt (a :: as) (b :: bs) = (a == b && isSubAt as bs) from rfl]
      simp [List.cons_prefix_cons, ih]

theorem hasSub_iff (n h : List Char) : hasSub n h = true ↔ n <:+: h := by
  induction h with
  | nil => simp [hasSub, List.infix_nil, List.isEmpty_iff]
  | cons b bs ih => simp [hasSub, List.infix_cons_iff, isSubAt_iff, ih]

theorem strContains_iff (hay needle : String) :
    strContains hay needle = true ↔ needle.data <:+: hay.data := by
  simpa [strContains] using hasSub_iff needle.data hay.data

/-! ### Pagination driver lemmas -/

theorem scrapeListingsAux_cons_ok (f : Filters) (env : Env) (p : Nat) (ps : List Nat)
    (acc : List Listing) (urls : List String) (hp : env.searchPage p = .ok urls) :
    scrapeListingsAux f env (p :: ps) acc =
      scrapeListingsAux f env ps
        (acc ++ urls.filterMap (scrape_listing f env.fetchListing)) := by
  show (match env.searchPage p with
    | .error _ => acc
    | .ok urls =>
      scrapeListingsAux f env ps
        (acc ++ urls.filterMap (scrape_listing f env.fetchListing))) = _
  rw [hp]

theorem scrapeListingsAux_cons_error (f : Filters) (env : Env) (p : Nat) (ps : List Nat)
    (acc : List Listing) (e : Unit) (hp : env.searchPage p = .error e) :
    scrapeListingsAux f env (p :: ps) acc = acc := by
  show (match env.searchPage p with
    | .error _ => acc
    | .ok urls =>
      scrapeListingsAux f env ps
        (acc ++ urls.filterMap (scrape_listing f env.fetchListing))) = _
  rw [hp]

theorem scrapeListingsAux_acc (f : Filters) (env : Env) (ps : List Nat)
    (a b : List Listing) :
    scrapeListingsAux f env ps (a ++ b) = a ++ scrapeListingsAux f env ps b := by
  induction ps generalizing b with
  | nil => rfl
  | cons p ps ih =>
    cases hp : env.searchPage p with
    | error e =>
      rw [scrapeListingsAux_cons_error f env p ps _ e hp,
          scrapeListingsAux_cons_error f env p ps _ e hp]
    | ok urls =>
      rw [scrapeListingsAux_cons_ok f env p ps _ urls hp,
          scrapeListingsAux_cons_ok f env p ps _ urls hp,
          List.append_assoc]
      exact ih _

theorem scrapeListingsAux_pages_append (f : Filters) (env : Env) (ps qs : List Nat)
    (acc : List Listing) (hok : ∀ p ∈ ps, ∃ urls, env.searchPage p = .ok urls) :
    scrapeListingsAux f env (ps ++ qs) acc =
      scrapeListingsAux f env qs (scrapeListingsAux f env ps acc) := by
  induction ps generalizing acc with
  | nil => rfl
  | cons p ps ih =>
    obtain ⟨urls, hp⟩ := hok p (by simp)
    rw [List.cons_append, scrapeListingsAux_cons_ok f env p (ps ++ qs) _ urls hp,
        scrapeListingsAux_cons_ok f env p ps _ urls hp]
    exact ih _ (fun q hq => hok q (by simp [hq]))

theorem filterMap_filter_ne {α β : Type} [DecidableEq α] (g : α → Option β) (u : α)
    (hgu : g u = none) (l : List α) :
    (l.filter (fun v => v ≠ u)).filterMap g = l.filterMap g := by
  induction l with
  | nil => rfl
  | cons a l ih =>
    simp only [ne_eq, decide_not] at ih ⊢
    by_cases ha : a = u
    · subst ha
      simp [List.filter_cons, List.filterMap_cons, hgu, ih]
    · have hfa : List.filter (fun v => !decide (v = u)) (a :: l) =
          a :: List.filter (fun v => !decide (v = u)) l := by
        simp [List.filter_cons, ha]
      rw [hfa, List.filterMap_cons, List.filterMap_cons, ih]

/-- What a successful `processSoup` guarantees about the returned record: the
record's derived fields are the classifier/extractor outputs on the document,
the ZIP check did not fire, and the requirement check of lines 135-137 did not
fire. -/
theorem processSoup_some_inv (f : Filters) (url : String) (soup : Soup) (l : Listing)
    (h : processSoup f url soup = some l) :
    l.zip_code = extract_zip_code soup ∧
    zipRejects f.zip_codes l.zip_code = false ∧
    l.wheelchair_accessible = is_wheelchair_accessible soup ∧
    l.section_8_accepted = accepts_section_8 soup ∧
    (f.wheelchair_accessible && !is_wheelchair_accessible soup) = false ∧
    (f.section_8_accepted && !accepts_section_8 soup) = false := by
  unfold processSoup at h
  split at h
  · exact absurd h (by simp)
  · rename_i hcond
    have hcond' : (f.wheelchair_accessible && !is_wheelchair_accessible soup
        || f.section_8_accepted && !accepts_section_8 soup) = false :=
      Bool.not_eq_true _ ▸ hcond
    obtain ⟨hc1, hc2⟩ := Bool.or_eq_false_iff.mp hcond'
    split at h
    · split at h
      · exact absurd h (by simp)
      · rename_i hzr
        obtain rfl : _ = l := Option.some.inj h
        exact ⟨rfl, Bool.not_eq_true _ ▸ hzr, rfl, rfl, hc1, hc2⟩
    · exact absurd h (by simp)

theorem scrape_listing_some_inv (f : Filters) (fetch : String → Option Soup)
    (url : String) (l : Listing) (h : scrape_listing f fetch url = some l) :
    ∃ soup, fetch url = some soup ∧ processSoup f url soup = some l := by
  unfold scrape_listing at h
  cases hf : fetch url with
  | none => rw [hf] at h; exact absurd h (by simp)
  | some soup => rw [hf] at h; exact ⟨soup, rfl, h⟩

theorem mem_scrapeListingsAux (f : Filters) (env : Env) (l : Listing) (ps : List Nat)
    (acc : List Listing) (h : l ∈ scrapeListingsAux f env ps acc) :
    l ∈ acc ∨ ∃ url, scrape_listing f env.fetchListing url = some l := by
  induction ps generalizing acc with
  | nil => exact Or.inl h
  | cons p ps ih =>
    cases hp : env.searchPage p with
    | error e =>
      rw [scrapeListingsAux_cons_error f env p ps _ e hp] at h
      exact Or.inl h
    | ok urls =>
      rw [scrapeListingsAux_cons_ok f env p ps _ urls hp] at h
      rcases ih _ h with hacc | hsome
      · rcases List.mem_append.1 hacc with h1 | h2
        · exact Or.inl h1
        · obtain ⟨url, _, hurl⟩ := List.mem_filterMap.1 h2
          exact Or.inr ⟨url, hurl⟩
      · exact Or.inr hsome

/-! ### Claim theorems -/

/-- C1. With a non-empty allowed-ZIP set, `scrape_listing` returns no listing
for any document whose extracted ZIP is not in the set — every branch of the
function yields `None` then — and with an empty allowed-ZIP set the ZIP check
of lines 154-156 rejects nothing. -/
theorem C1_zip_filter :
    (∀ (f : Filters) (fetch : String → Option Soup) (url : String) (soup : Soup),
      fetch url = some soup → f.zip_codes ≠ [] →
      f.zip_codes.contains (extract_zip_code soup) = false →
      scrape_listing f fetch url = none) ∧
    (∀ zip : String, zipRejects [] zip = false) := by
  constructor
  · intro f fetch url soup hf hz hc
    have hzr : zipRejects f.zip_codes (extract_zip_code soup) = true := by
      unfold zipRejects
      rw [hc]
      simp [List.isEmpty_iff, hz]
    have : scrape_listing f fetch url = processSoup f url soup := by
      unfold scrape_listing
      rw [hf]
    rw [this]
    simp only [processSoup, hzr, if_true]
    split
    · rfl
    · split <;> rfl
  · intro zip
    simp [zipRejects]

/-- C1 witness: a concrete criteria/document pair with allowed set `{33131}`
and extracted ZIP `33125` is rejected, and the empty-set ZIP check passes a
concrete ZIP. -/
theorem C1_zip_filter_witness :
    scrape_listing { zip_codes := ["33131"] }
      (fun _ => some { titleText := some "T", priceText := some "$1", bedroomsText := some "1",
                       bathroomsText := some "1", sqftText := some "700",
                       addressText := some "1 Main St, Miami, FL 33125",
                       descriptionText := some "nice" }) "u" = none ∧
    zipRejects [] "33125" = false := by
  exact ⟨C1_zip_filter.1 { zip_codes := ["33131"] } _ "u" _ rfl (by decide) (by decide),
         C1_zip_filter.2 "33125"⟩

/-- C2. Whenever the criteria require wheelchair accessibility and the
document is not classified accessible, `scrape_listing` returns no listing,
whatever the other fields and filter settings are. -/
theorem C2_wheelchair_required (f : Filters) (fetch : String → Option Soup)
    (url : String) (soup : Soup) (hf : fetch url = some soup)
    (hreq : f.wheelchair_accessible = true)
    (hacc : is_wheelchair_accessible soup = false) :
    scrape_listing f fetch url = none := by
  have : scrape_listing f fetch url = processSoup f url soup := by
    unfold scrape_listing
    rw [hf]
  rw [this]
  unfold processSoup
  rw [hreq, hacc]
  simp

/-- C2 witness: a concrete document with no accessibility keyword is rejected
under a criteria requiring accessibility. -/
theorem C2_wheelchair_required_witness :
    scrape_listing { wheelchair_accessible := true }
      (fun _ => some { titleText := some "T", priceText := some "$1", bedroomsText := some "1",
                       bathroomsText := some "1", sqftText := some "700",
                       addressText := some "1 Main St, Miami, FL 33131",
                       descriptionText := some "lovely view" }) "u" = none :=
  C2_wheelchair_required { wheelchair_accessible := true } _ "u" _ rfl rfl (by decide)

/-- C3. Each classifier answers `true` exactly when the lower-cased
description contains one of its keyword phrases as a substring; and any
description containing `"Section 8 Welcome"` (mixed case) makes the
subsidized-housing classifier answer `true`. -/
theorem C3_classifiers (soup : Soup) (d : String)
    (hd : soup.descriptionText = some d) :
    (is_wheelchair_accessible soup = true ↔
      ∃ p ∈ accessibility_indicators, p.data <:+: (pyLower d).data) ∧
    (accepts_section_8 soup = true ↔
      ∃ p ∈ section8_indicators, p.data <:+: (pyLower d).data) ∧
    ("Section 8 Welcome".data <:+: d.data → accepts_section_8 soup = true) := by
  refine ⟨?_, ?_, ?_⟩
  · simp [is_wheelchair_accessible, hd, List.any_eq_true, strContains_iff]
  · simp [accepts_section_8, hd, List.any_eq_true, strContains_iff]
  · intro hocc
    have hmap : "Section 8 Welcome".data.map Char.toLower <:+: d.data.map Char.toLower :=
      hocc.map Char.toLower
    have hlow : "Section 8 Welcome".data.map Char.toLower = "section 8 welcome".data := by
      decide
    have hpre : "section 8".data <:+: "section 8 welcome".data := by decide
    have : "section 8".data <:+: (pyLower d).data := by
      refine hpre.trans ?_
      rw [← hlow]
      exact hmap
    simp only [accepts_section_8, hd]
    rw [List.any_eq_true]
    exact ⟨"section 8", by simp [section8_indicators], (strContains_iff _ _).2 this⟩

/-- C6. A search-page transport fault on page `j + 1` of an `n`-page budget,
with all earlier pages intact, makes the run identical to a run over just the
first `j` pages — no later page contributes — and `main` still hands exactly
those accumulated listings to the sink. -/
theorem C6_search_fault_aborts (f : Filters) (env : Env) (now : DateTime)
    (n j : Nat) (hj : j + 1 ≤ n)
    (hok : ∀ p, 1 ≤ p → p ≤ j → ∃ urls, env.searchPage p = .ok urls)
    (hfault : env.searchPage (j + 1) = .error ()) :
    scrape_listings f env n = scrape_listings f env j ∧
    (runScrapeAndSave f env now n).2 = save_results now (scrape_listings f env j) := by
  have key : scrape_listings f env n = scrape_listings f env j := by
    unfold scrape_listings
    have hsplit : List.range' 1 n = List.range' 1 j ++ List.range' (1 + 1 * j) (n - j) := by
      rw [List.range'_append 1 j (n - j) 1]
      congr 1
      omega
    rw [hsplit,
        scrapeListingsAux_pages_append f env _ _ _ (fun p hp => by
          rw [List.mem_range'_1] at hp
          exact hok p hp.1 (by omega))]
    obtain ⟨m, hm⟩ : ∃ m, n - j = m + 1 := ⟨n - j - 1, by omega⟩
    rw [show 1 + 1 * j = j + 1 from by omega, hm,
        show List.range' (j + 1) (m + 1) = (j + 1) :: List.range' (j + 2) m from rfl,
        scrapeListingsAux_cons_error f env _ _ _ () hfault]
  exact ⟨key, by simp [runScrapeAndSave, key]⟩

/-- A plain document that passes an all-default criteria. -/
def soupPlain (t : String) : Soup :=
  { titleText := some t, priceText := some "$1,500", bedroomsText := some "2",
    bathroomsText := some "1", sqftText := some "800",
    addressText := some "100 Main St, Miami, FL 33131",
    descriptionText := some "A plain listing" }

/-- Run environment for the C6 scenario: page 1 yields three listing links,
page 2 faults. -/
def env6 : Env :=
  { searchPage := fun p => if p = 1 then .ok ["u1", "u2", "u3"] else .error ()
    fetchListing := fun u => some (soupPlain u) }

/-- A fixed run timestamp. -/
def dt0 : DateTime := ⟨2026, 10, 12, 9, 30, 15⟩

/-- C6 witness: the fault-on-page-2 scenario with a 5-page budget reduces to
the page-1 run and the sink receives exactly that result set. -/
theorem C6_search_fault_aborts_witness :
    scrape_listings {} env6 5 = scrape_listings {} env6 1 ∧
    (runScrapeAndSave {} env6 dt0 5).2 = save_results dt0 (scrape_listings {} env6 1) :=
  C6_search_fault_aborts {} env6 dt0 5 1 (by omega)
    (fun p h1 h2 => ⟨["u1", "u2", "u3"], by
      have hp : p = 1 := by omega
      subst hp
      rfl⟩)
    rfl

/-- C7. A failure confined to one listing URL — its fetch, extraction, or
filtering, all of which surface as `scrape_listing` returning `none` — changes
nothing beyond that listing: the run over the original pages equals the run
over the same pages with that URL removed, so the page loop and the run
continue past it. -/
theorem C7_listing_failure_isolated (f : Filters) (env : Env) (u : String) (n : Nat)
    (hfail : scrape_listing f env.fetchListing u = none) :
    scrape_listings f (dropUrl env u) n = scrape_listings f env n := by
  have haux : ∀ ps acc, scrapeListingsAux f (dropUrl env u) ps acc =
      scrapeListingsAux f env ps acc := by
    intro ps
    induction ps with
    | nil => intro acc; rfl
    | cons p ps ih =>
      intro acc
      cases hp : env.searchPage p with
      | error e =>
        have hp' : (dropUrl env u).searchPage p = .error e := by
          simp [dropUrl, hp]
        rw [scrapeListingsAux_cons_error _ _ p ps acc e hp',
            scrapeListingsAux_cons_error _ _ p ps acc e hp]
      | ok urls =>
        have hp' : (dropUrl env u).searchPage p =
            .ok (urls.filter (fun v => v ≠ u)) := by
          simp [dropUrl, hp]
        rw [scrapeListingsAux_cons_ok _ _ p ps acc _ hp',
            scrapeListingsAux_cons_ok _ _ p ps acc _ hp]
        have hfetch : (dropUrl env u).fetchListing = env.fetchListing := rfl
        rw [hfetch, filterMap_filter_ne _ u hfail]
        exact ih _
  unfold scrape_listings
  exact haux _ _

/-- A document whose required title locator finds nothing. -/
def soupNoTitle : Soup :=
  { titleText := none, priceText := some "$900", bedroomsText := some "1",
    bathroomsText := some "1", sqftText := some "600",
    addressText := some "200 Oak Ave, Miami, FL 33127",
    descriptionText := some "Listing with a broken title locator" }

/-- Run environment for the C7 scenario: two pages, the first containing one
good link and one link whose extraction fails. -/
def env7 : Env :=
  { searchPage := fun p =>
      if p = 1 then .ok ["good", "bad"] else if p = 2 then .ok ["good2"] else .ok []
    fetchListing := fun u => if u = "bad" then some soupNoTitle else some (soupPlain u) }

/-- C7 witness: the run with the failing link `bad` present equals the run
with it removed. -/
theorem C7_listing_failure_isolated_witness :
    scrape_listings {} (dropUrl env7 "bad") 3 = scrape_listings {} env7 3 :=
  C7_listing_failure_isolated {} env7 "bad" 3 rfl

/-- C8. When every page of the budget responds, the result set is exactly the
page-major, link-minor flattening of the discovered links, restricted by
`filterMap` to the listings that extract and pass — discovery order, accepted
listings only. -/
theorem C8_discovery_order (f : Filters) (env : Env) (n : Nat) (pages : Nat → List String)
    (hok : ∀ p, 1 ≤ p → p ≤ n → env.searchPage p = .ok (pages p)) :
    scrape_listings f env n =
      ((List.range' 1 n).flatMap pages).filterMap (scrape_listing f env.fetchListing) := by
  revert hok
  induction n with
  | zero => intro _; rfl
  | succ m ih =>
    intro hok
    have hsplit : List.range' 1 (m + 1) = List.range' 1 m ++ [1 + 1 * m] := by
      have h1 : List.range' 1 m ++ List.range' (1 + 1 * m) 1 1 = List.range' 1 (1 + m) :=
        List.range'_append 1 m 1 1
      rw [show m + 1 = 1 + m from by omega, ← h1]
      rfl
    unfold scrape_listings
    rw [hsplit,
        scrapeListingsAux_pages_append f env _ _ _ (fun p hp => by
          rw [List.mem_range'_1] at hp
          exact ⟨pages p, hok p hp.1 (by omega)⟩),
        show 1 + 1 * m = m + 1 from by omega,
        scrapeListingsAux_cons_ok f env (m + 1) [] _ (pages (m + 1))
          (hok (m + 1) (by omega) (by omega))]
    show scrapeListingsAux f env (List.range' 1 m) [] ++ _ = _
    have ihm := ih (fun p h1 h2 => hok p h1 (by omega))
    unfold scrape_listings at ihm
    rw [ihm]
    simp [List.flatMap_append, List.filterMap_append]

/-- Run environment for the C8 witness: two pages with one link each. -/
def env8 : Env :=
  { searchPage := fun p => .ok (if p = 1 then ["a1"] else if p = 2 then ["a2"] else [])
    fetchListing := fun u => some (soupPlain u) }

/-- C8 witness: the ordering law instantiated on a concrete two-page run. -/
theorem C8_discovery_order_witness :
    scrape_listings {} env8 2 =
      ((List.range' 1 2).flatMap
          (fun p => if p = 1 then ["a1"] else if p = 2 then ["a2"] else [])).filterMap
        (scrape_listing {} env8.fetchListing) :=
  C8_discovery_order {} env8 2 _ (fun _ _ _ => rfl)

/-- C10. Result-set invariant: every listing the pagination driver returns
satisfies the active criteria — its ZIP is in the allowed set whenever that set
is non-empty, it is classified wheelchair accessible whenever that is required,
and subsidized whenever that is required. -/
theorem C10_result_invariant (f : Filters) (env : Env) (n : Nat) (l : Listing)
    (hl : l ∈ scrape_listings f env n) :
    (f.zip_codes ≠ [] → f.zip_codes.contains l.zip_code = true) ∧
    (f.wheelchair_accessible = true → l.wheelchair_accessible = true) ∧
    (f.section_8_accepted = true → l.section_8_accepted = true) := by
  unfold scrape_listings at hl
  rcases mem_scrapeListingsAux f env l _ _ hl with h | ⟨url, hurl⟩
  · exact absurd h (List.not_mem_nil l)
  obtain ⟨soup, hfetch, hproc⟩ := scrape_listing_some_inv f env.fetchListing url l hurl
  obtain ⟨hz_eq, hzr, hw_eq, hs_eq, hc1, hc2⟩ := processSoup_some_inv f url soup l hproc
  refine ⟨?_, ?_, ?_⟩
  · intro hzs
    unfold zipRejects at hzr
    have h1 : (!f.zip_codes.isEmpty) = true := by
      cases he : f.zip_codes.isEmpty
      · rfl
      · exact absurd (List.isEmpty_iff.mp he) hzs
    rw [h1, Bool.true_and] at hzr
    cases hc : f.zip_codes.contains l.zip_code
    · rw [hc] at hzr
      exact absurd hzr (by simp)
    · rfl
  · intro hreq
    rw [hw_eq]
    cases hb : is_wheelchair_accessible soup
    · rw [hreq, hb] at hc1
      exact absurd hc1 (by simp)
    · rfl
  · intro hreq
    rw [hs_eq]
    cases hb : accepts_section_8 soup
    · rw [hreq, hb] at hc2
      exact absurd hc2 (by simp)
    · rfl

/-- A document that satisfies all three active criteria of the C10 witness. -/
def soupFull : Soup :=
  { titleText := some "Cozy 2BR", priceText := some "$1,800", bedroomsText := some "2",
    bathroomsText := some "1", sqftText := some "850",
    addressText := some "350 NE 2nd Ave, Miami, FL 33132",
    descriptionText := some "Wheelchair accessible unit, Section 8 welcome." }

/-- Criteria with all three filter predicates active. -/
def filters10 : Filters :=
  { zip_codes := ["33131", "33132"], wheelchair_accessible := true,
    section_8_accepted := true }

/-- Run environment for the C10 witness. -/
def env10 : Env :=
  { searchPage := fun p => if p = 1 then .ok ["w"] else .error ()
    fetchListing := fun _ => some soupFull }

/-- The listing the C10 witness run accepts. -/
def listing10 : Listing :=
  { title := "Cozy 2BR", price := "$1,800", bedrooms := "2", bathrooms := "1",
    sqft := "850", address := "350 NE 2nd Ave, Miami, FL 33132", zip_code := "33132",
    wheelchair_accessible := true, section_8_accepted := true,
    description := "Wheelchair accessible unit, Section 8 welcome.", url := "w" }

/-- C10 witness: the invariant instantiated on a concrete accepted listing of
a run with all three criteria active. -/
theorem C10_result_invariant_witness :
    (filters10.zip_codes ≠ [] → filters10.zip_codes.contains listing10.zip_code = true) ∧
    (filters10.wheelchair_accessible = true → listing10.wheelchair_accessible = true) ∧
    (filters10.section_8_accepted = true → listing10.section_8_accepted = true) :=
  C10_result_invariant filters10 env10 1 listing10 (by decide)

/-- C3 witness: the classifier laws instantiated on a concrete mixed-case
description. -/
theorem C3_classifiers_witness :
    (is_wheelchair_accessible
        { titleText := none, priceText := none, bedroomsText := none,
          bathroomsText := none, sqftText := none, addressText := none,
          descriptionText := some "Nice unit, Section 8 Welcome!" } = true ↔
      ∃ p ∈ accessibility_indicators,
        p.data <:+: (pyLower "Nice unit, Section 8 Welcome!").data) ∧
    (accepts_section_8
        { titleText := none, priceText := none, bedroomsText := none,
          bathroomsText := none, sqftText := none, addressText := none,
          descriptionText := some "Nice unit, Section 8 Welcome!" } = true ↔
      ∃ p ∈ section8_indicators,
        p.data <:+: (pyLower "Nice unit, Section 8 Welcome!").data) ∧
    ("Section 8 Welcome".data <:+: "Nice unit, Section 8 Welcome!".data →
      accepts_section_8
        { titleText := none, priceText := none, bedroomsText := none,
          bathroomsText := none, sqftText := none, addressText := none,
          descriptionText := some "Nice unit, Section 8 Welcome!" } = true) :=
  C3_classifiers _ "Nice unit, Section 8 Welcome!" rfl

/-- C4 counterexample: `main` passes `MIAMI_ZIP_CODES.keys()`, a dict-keys
view; `set_filters`'s `isinstance(value, (list, set))` test excludes it, so the
view is stored unchanged — not normalized to a set of strings. -/
theorem C4_counterexample :
    setZipCodesFilter (.pyDictKeys MIAMI_ZIP_CODES_keys) =
      .pyDictKeys MIAMI_ZIP_CODES_keys ∧
    (setZipCodesFilter (.pyDictKeys MIAMI_ZIP_CODES_keys)).isStrSet = false :=
  ⟨rfl, rfl⟩

/-- C4 (amended). The ZIP-codes filter value is normalized to a set of strings
exactly when it is supplied as a list or a set; every other iterable shape
(tuple, dict-keys view, generator) is stored as is, unnormalized. -/
theorem C4_normalization (v : PyIterable) :
    (v.isListOrSet = true → (setZipCodesFilter v).isStrSet = true) ∧
    (v.isListOrSet = false → setZipCodesFilter v = v) := by
  constructor
  · intro h
    unfold setZipCodesFilter
    rw [h, if_pos rfl]
    simp only [PyIterable.isStrSet, List.all_eq_true]
    intro x hx
    rw [List.mem_dedup] at hx
    obtain ⟨z, _, rfl⟩ := List.mem_map.1 hx
    rfl
  · intro h
    unfold setZipCodesFilter
    rw [h]
    simp

/-- C4 witness: a list containing an integer and a string is normalized to a
set of strings. -/
theorem C4_normalization_witness :
    (setZipCodesFilter (.pyList [.int 33131, .str "33125"])).isStrSet = true :=
  (C4_normalization (.pyList [.int 33131, .str "33125"])).1 rfl

/-- C5 (amended). A required-field locator miss — title, price, or address —
makes `scrape_listing` return no listing (a skip), and the classifiers answer
`false` without error when the description container is absent; but the
description is effectively required too: line 150 dereferences it, so a
document missing it also fails extraction. -/
theorem C5_required_fields (f : Filters) (fetch : String → Option Soup)
    (url : String) (soup : Soup) (hf : fetch url = some soup) :
    ((soup.titleText = none ∨ soup.priceText = none ∨ soup.addressText = none ∨
        soup.descriptionText = none) → scrape_listing f fetch url = none) ∧
    (soup.descriptionText = none →
      is_wheelchair_accessible soup = false ∧ accepts_section_8 soup = false) := by
  constructor
  · intro hmiss
    have hbody : scrape_listing f fetch url = processSoup f url soup := by
      unfold scrape_listing
      rw [hf]
    rw [hbody]
    unfold processSoup
    split
    · rfl
    · split
      · rcases hmiss with h | h | h | h <;> simp_all
      · rfl
  · intro hd
    exact ⟨by unfold is_wheelchair_accessible; rw [hd],
           by unfold accepts_section_8; rw [hd]⟩

/-- A document whose only missing locator is the description container. -/
def soupNoDesc : Soup :=
  { titleText := some "Apt", priceText := some "$1,200", bedroomsText := some "2",
    bathroomsText := some "1", sqftText := some "800",
    addressText := some "500 SW 8th St, Miami, FL 33130", descriptionText := none }

/-- C5 counterexample: a document missing only the description does NOT
extract successfully — `scrape_listing` returns no listing for it even under
all-default criteria, because building the record dereferences the missing
description. -/
theorem C5_counterexample :
    scrape_listing {} (fun _ => some soupNoDesc) "u" = none := rfl

/-- C5 witness: the amended claim instantiated on the description-less
document. -/
theorem C5_required_fields_witness :
    ((soupNoDesc.titleText = none ∨ soupNoDesc.priceText = none ∨
        soupNoDesc.addressText = none ∨ soupNoDesc.descriptionText = none) →
      scrape_listing {} (fun _ => some soupNoDesc) "u2" = none) ∧
    (soupNoDesc.descriptionText = none →
      is_wheelchair_accessible soupNoDesc = false ∧
      accepts_section_8 soupNoDesc = false) :=
  C5_required_fields {} (fun _ => some soupNoDesc) "u2" soupNoDesc rfl

/-! ### C9: file-name collision analysis -/

/-- Field bounds under which the zero-padded rendering is faithful; every
real `datetime.now()` value satisfies them. -/
def DateTime.InRange (t : DateTime) : Prop :=
  t.year < 10000 ∧ t.month < 100 ∧ t.day < 100 ∧ t.hour < 100 ∧
  t.minute < 100 ∧ t.second < 100

/-- The numeric value of a digit character. -/
def digitVal (c : Char) : Nat := c.toNat - 48

/-- Reassemble a four-digit rendering. -/
def decode4 (a b c d : Char) : Nat :=
  ((digitVal a * 10 + digitVal b) * 10 + digitVal c) * 10 + digitVal d

/-- Reassemble a two-digit rendering. -/
def decode2 (a b : Char) : Nat := digitVal a * 10 + digitVal b

/-- Parse a `%Y%m%d_%H%M%S` character sequence back into its fields. -/
def decodeTs : List Char → Option DateTime
  | [y1, y2, y3, y4, mo1, mo2, d1, d2, _, h1, h2, mi1, mi2, s1, s2] =>
    some { year := decode4 y1 y2 y3 y4, month := decode2 mo1 mo2,
           day := decode2 d1 d2, hour := decode2 h1 h2,
           minute := decode2 mi1 mi2, second := decode2 s1 s2 }
  | _ => none

theorem digitVal_digitChar : ∀ m, m < 10 → digitVal (digitChar m) = m := by decide

theorem decodeTs_strftime (t : DateTime) (h : t.InRange) :
    decodeTs (strftimeYmdHMS t).data = some t := by
  obtain ⟨y, mo, d, hh, mi, s⟩ := t
  obtain ⟨hy, hmo, hd, hhh, hmi, hs⟩ := h
  replace hy : y < 10000 := hy
  replace hmo : mo < 100 := hmo
  replace hd : d < 100 := hd
  replace hhh : hh < 100 := hhh
  replace hmi : mi < 100 := hmi
  replace hs : s < 100 := hs
  show some _ = some _
  simp only [Option.some.injEq, DateTime.mk.injEq]
  refine ⟨?_, ?_, ?_, ?_, ?_, ?_⟩
  · unfold decode4
    rw [digitVal_digitChar _ (by omega), digitVal_digitChar _ (by omega),
        digitVal_digitChar _ (by omega), digitVal_digitChar _ (by omega)]
    omega
  · unfold decode2
    rw [digitVal_digitChar _ (by omega), digitVal_digitChar _ (by omega)]
    omega
  · unfold decode2
    rw [digitVal_digitChar _ (by omega), digitVal_digitChar _ (by omega)]
    omega
  · unfold decode2
    rw [digitVal_digitChar _ (by omega), digitVal_digitChar _ (by omega)]
    omega
  · unfold decode2
    rw [digitVal_digitChar _ (by omega), digitVal_digitChar _ (by omega)]
    omega
  · unfold decode2
    rw [digitVal_digitChar _ (by omega), digitVal_digitChar _ (by omega)]
    omega

theorem strftimeYmdHMS_inj (t1 t2 : DateTime) (h1 : t1.InRange) (h2 : t2.InRange)
    (h : strftimeYmdHMS t1 = strftimeYmdHMS t2) : t1 = t2 := by
  have d1 := decodeTs_strftime t1 h1
  have d2 := decodeTs_strftime t2 h2
  rw [h, d2] at d1
  exact (Option.some.inj d1).symm

theorem strData_append (s t : String) : (s ++ t).data = s.data ++ t.data := rfl

/-- C9 counterexample: two distinct runs — different, non-empty result sets —
whose `datetime.now()` falls in the same second get the very same output file
name, so the naming is not collision-free across runs. -/
theorem C9_counterexample :
    save_results dt0
        [{ title := "A", price := "$1,000", bedrooms := "1", bathrooms := "1",
           sqft := "700", address := "1 A St, Miami, FL 33131", zip_code := "33131",
           wheelchair_accessible := false, section_8_accepted := false,
           description := "a", url := "uA" }] =
      save_results dt0
        [{ title := "B", price := "$2,000", bedrooms := "2", bathrooms := "2",
           sqft := "900", address := "2 B St, Miami, FL 33132", zip_code := "33132",
           wheelchair_accessible := true, section_8_accepted := true,
           description := "b", url := "uB" }] ∧
    ([{ title := "A", price := "$1,000", bedrooms := "1", bathrooms := "1",
        sqft := "700", address := "1 A St, Miami, FL 33131", zip_code := "33131",
        wheelchair_accessible := false, section_8_accepted := false,
        description := "a", url := "uA" }] : List Listing) ≠
      [{ title := "B", price := "$2,000", bedrooms := "2", bathrooms := "2",
         sqft := "900", address := "2 B St, Miami, FL 33132", zip_code := "33132",
         wheelchair_accessible := true, section_8_accepted := true,
         description := "b", url := "uB" }] ∧
    save_results dt0
        [{ title := "A", price := "$1,000", bedrooms := "1", bathrooms := "1",
           sqft := "700", address := "1 A St, Miami, FL 33131", zip_code := "33131",
           wheelchair_accessible := false, section_8_accepted := false,
           description := "a", url := "uA" }] = some (saveFilename dt0) :=
  ⟨rfl, by decide, rfl⟩

/-- C9 (amended). File names collide exactly on the second: two runs whose
timestamps differ in any field produce distinct file names; two runs within
the same second (as the counterexample shows) share one. -/
theorem C9_distinct_timestamps (t1 t2 : DateTime) (h1 : t1.InRange)
    (h2 : t2.InRange) (hne : t1 ≠ t2) : saveFilename t1 ≠ saveFilename t2 := by
  intro heq
  apply hne
  apply strftimeYmdHMS_inj t1 t2 h1 h2
  have hd := congrArg String.data heq
  rw [saveFilename, saveFilename, strData_append, strData_append,
      strData_append, strData_append] at hd
  exact congrArg String.mk (List.append_cancel_left (List.append_cancel_right hd))

/-- C9 witness: two in-range timestamps one second apart give different file
names. -/
theorem C9_distinct_timestamps_witness :
    saveFilename dt0 ≠ saveFilename ⟨2026, 10, 12, 9, 30, 16⟩ :=
  C9_distinct_timestamps dt0 ⟨2026, 10, 12, 9, 30, 16⟩
    ⟨by decide, by decide, by decide, by decide, by decide, by decide⟩
    ⟨by decide, by decide, by decide, by decide, by decide, by decide⟩
    (by decide)

end Scraper
